import Mathlib

/-!
Verification development for the aerolytics repository.

The frontend source under `frontend/src` is embedded directly (the
`parseMetar` extractor of `App.js`, the category colour table of
`App_old.js`, and the route fetch shape of the dashboard `App`).  The
backend decoding-and-scoring core (METAR/TAF/SIGMET/PIREP decoders, the
risk scoring engine and the briefing aggregator) is not part of the
checked-in sources; those components are modelled from the written
specification, and every definition doing so says which part it models.
-/

namespace Aerolytics

/- ### Character-level helpers for the frontend regular expressions -/

/-- Consume exactly `n` decimal digits from the front of a character list,
returning the digits and the remainder, or `none` when fewer than `n`
digits are available. -/
def exactDigits : Nat → List Char → Option (List Char × List Char)
  | 0, cs => some ([], cs)
  | _ + 1, [] => none
  | n + 1, c :: cs =>
      if c.isDigit then (exactDigits n cs).map (fun p => (c :: p.1, p.2)) else none

/-- Match a literal character sequence at the front of the input, returning
the remainder on success. -/
def dropLit : List Char → List Char → Option (List Char)
  | [], cs => some cs
  | _ :: _, [] => none
  | p :: ps, c :: cs => if c = p then dropLit ps cs else none

/-- Run a position matcher at every suffix of the input from left to right
and return the first success, mirroring how a JavaScript `String.match`
with a non-global regular expression finds the leftmost match. -/
def scanFirst {α : Type} (f : List Char → Option α) : List Char → Option α
  | [] => f []
  | cs@(_ :: rest) =>
      match f cs with
      | some r => some r
      | none => scanFirst f rest

/- ### The four regular expressions of the frontend `parseMetar`
`App.js` (the dashboard variant) lines 791-805: wind, visibility,
temperature and pressure are extracted with `String.match` and formatted
into display strings. -/

/-- Attempt the tail of the wind pattern after the three direction digits
and the chosen speed digits: an optional `G` gust group (greedy, two or
three digits) followed by the literal `KT`.  Mirrors the backtracking
order of `(G\d{2,3})?KT`. -/
def windAfterSpeed (dir speed : List Char) (rest : List Char) :
    Option (String × String × String) :=
  match rest with
  | 'G' :: gr =>
      match exactDigits 3 gr with
      | some (g, r2) =>
          match dropLit ['K', 'T'] r2 with
          | some _ => some (String.mk dir, String.mk speed, String.mk ('G' :: g))
          | none =>
              match exactDigits 2 gr with
              | some (g2, r3) =>
                  match dropLit ['K', 'T'] r3 with
                  | some _ => some (String.mk dir, String.mk speed, String.mk ('G' :: g2))
                  | none => none
              | none => none
      | none =>
          match exactDigits 2 gr with
          | some (g2, r3) =>
              match dropLit ['K', 'T'] r3 with
              | some _ => some (String.mk dir, String.mk speed, String.mk ('G' :: g2))
              | none => none
          | none => none
  | _ =>
      match dropLit ['K', 'T'] rest with
      | some _ => some (String.mk dir, String.mk speed, "")
      | none => none

/-- One position of the wind regular expression
`(\d{3})(\d{2,3})(G\d{2,3})?KT`: three direction digits, then a greedy
two-or-three digit speed (three tried first), then the optional gust
group and the literal `KT`. -/
def windAt (cs : List Char) : Option (String × String × String) :=
  match exactDigits 3 cs with
  | none => none
  | some (dir, rest) =>
      match exactDigits 3 rest with
      | some (sp3, r3) =>
          match windAfterSpeed dir sp3 r3 with
          | some m => some m
          | none =>
              match exactDigits 2 rest with
              | some (sp2, r2) => windAfterSpeed dir sp2 r2
              | none => none
      | none =>
          match exactDigits 2 rest with
          | some (sp2, r2) => windAfterSpeed dir sp2 r2
          | none => none

/-- One position of the visibility regular expression `(\d+|\d+\/\d+)SM`:
either a plain digit run or a digit fraction, followed by the literal
`SM`.  The captured group text is returned. -/
def visAt (cs : List Char) : Option String :=
  let d := cs.takeWhile Char.isDigit
  let rest := cs.dropWhile Char.isDigit
  if d.isEmpty then none
  else
    match dropLit ['S', 'M'] rest with
    | some _ => some (String.mk d)
    | none =>
        match rest with
        | '/' :: r2 =>
            let d2 := r2.takeWhile Char.isDigit
            let r3 := r2.dropWhile Char.isDigit
            if d2.isEmpty then none
            else
              match dropLit ['S', 'M'] r3 with
              | some _ => some (String.mk (d ++ '/' :: d2))
              | none => none
        | _ => none

/-- Tail of the temperature regular expression after the optional leading
`M`: two digits, a slash, an optional `M`, and two digits.  Captures the
two two-digit groups of `M?(\d{2})\/M?(\d{2})`. -/
def tempTail (cs : List Char) : Option (String × String) :=
  match exactDigits 2 cs with
  | none => none
  | some (t1, r1) =>
      match r1 with
      | '/' :: r2 =>
          match r2 with
          | 'M' :: r3 =>
              match exactDigits 2 r3 with
              | some (t2, _) => some (String.mk t1, String.mk t2)
              | none => none
          | _ =>
              match exactDigits 2 r2 with
              | some (t2, _) => some (String.mk t1, String.mk t2)
              | none => none
      | _ => none

/-- One position of the temperature regular expression
`M?(\d{2})\/M?(\d{2})`.  A leading `M` is consumed greedily; when the
digits behind the consumed `M` fail, the no-`M` alternative also faces
the `M` character and fails, so trying the consumed branch alone is
faithful. -/
def tempAt (cs : List Char) : Option (String × String) :=
  match cs with
  | 'M' :: r => tempTail r
  | _ => tempTail cs

/-- One position of the pressure regular expression `A(\d{4})`. -/
def pressAt (cs : List Char) : Option String :=
  match cs with
  | 'A' :: r =>
      match exactDigits 4 r with
      | some (p, _) => some (String.mk p)
      | none => none
  | _ => none

/-- Leftmost match of the wind regular expression over a string. -/
def windMatch (s : String) : Option (String × String × String) :=
  scanFirst windAt s.data

/-- Leftmost match of the visibility regular expression over a string. -/
def visMatch (s : String) : Option String :=
  scanFirst visAt s.data

/-- Leftmost match of the temperature regular expression over a string. -/
def tempMatch (s : String) : Option (String × String) :=
  scanFirst tempAt s.data

/-- Leftmost match of the pressure regular expression over a string. -/
def pressMatch (s : String) : Option String :=
  scanFirst pressAt s.data

/-- The object shape returned by the frontend `parseMetar`: exactly the
four keys `wind`, `visibility`, `temperature` and `pressure`, each a
formatted display string or null. -/
structure ParsedMetarView where
  wind : Option String
  visibility : Option String
  temperature : Option String
  pressure : Option String
deriving Repr, DecidableEq

/-- The frontend METAR extractor `parseMetar` of the dashboard `App.js`.
A falsy argument (null, undefined, or the empty string, modelled as
`none` or `some ""`) yields null; otherwise the four regular expressions
are each matched and formatted exactly as in the source:
wind `m1°/m2kt` with the raw optional gust group appended, visibility
`vSM`, temperature `t1°C` (the sign prefix `M` is dropped by the
source), pressure the four altimeter digits split as `dd.dd`. -/
def parseMetar (metarText : Option String) : Option ParsedMetarView :=
  match metarText with
  | none => none
  | some s =>
      if s = "" then none
      else
        some
          { wind := (windMatch s).map fun m => m.1 ++ "°/" ++ m.2.1 ++ "kt" ++ m.2.2
            visibility := (visMatch s).map fun v => v ++ "SM"
            temperature := (tempMatch s).map fun t => t.1 ++ "°C"
            pressure := (pressMatch s).map fun p =>
              String.mk (p.data.take 2) ++ "." ++ String.mk (p.data.drop 2) }

/- ### Category colour table of `App_old.js` -/

/-- The colour switch `getWeatherCategoryColor` of `App_old.js` lines
45-56, verbatim: Clear is green `#28a745`, Significant is yellow
`#ffc107`, Severe is red `#dc3545`, anything else grey `#6c757d`. -/
def getWeatherCategoryColor (category : String) : String :=
  if category = "Clear" then "#28a745"
  else if category = "Significant" then "#ffc107"
  else if category = "Severe" then "#dc3545"
  else "#6c757d"

/- ### Spec-modelled backend data model
The decoding-and-scoring core is absent from the checked-in sources; the
definitions below carry `Modelled from the spec:` doc comments and follow
the specification's data model (section 3) and component design
(section 4). -/

/-- Numeric value of a digit run. -/
def digitsToNat (cs : List Char) : Nat :=
  cs.foldl (fun n c => 10 * n + (c.toNat - 48)) 0

/-- Modelled from the spec: DecodedMetar wind group, direction in degrees
or variable (`none`), speed, optional gust, knots assumed. -/
structure Wind where
  direction : Option Nat
  speed : Nat
  gust : Option Nat
deriving Repr, DecidableEq

/-- Modelled from the spec: DecodedMetar visibility, distance with unit
and the unlimited flag set by CAVOK. -/
structure Visib where
  distance : Option Nat
  unit : String
  unlimited : Bool
deriving Repr, DecidableEq

/-- Modelled from the spec: one weather-phenomenon entry, an intensity
prefix and the phenomenon code. -/
structure Phenom where
  intensity : String
  code : String
deriving Repr, DecidableEq

/-- Modelled from the spec: one cloud layer, coverage code, height in
hundreds of feet and an optional convective suffix. -/
structure Cloud where
  coverage : String
  height : Nat
  convective : Option String
deriving Repr, DecidableEq

/-- Modelled from the spec: the DecodedMetar record, including the
parse-errors diagnostic list and raw remark tokens. -/
structure DecodedMetar where
  station : Option String
  time : Option String
  wind : Option Wind
  visibility : Visib
  weather : List Phenom
  clouds : List Cloud
  temperature : Option Int
  dewpoint : Option Int
  altimeter : Option String
  remarks : List String
  parseErrors : List String
deriving Repr, DecidableEq

/- ### Grammar matcher rules (spec section 4.1 / 4.2) -/

/-- Parse a wind group token: `VRB` or three direction digits, a two or
three digit speed, an optional gust `G` group, ending in `KT`. -/
def parseWindTok (t : String) : Option Wind :=
  let cs := t.data
  let core : Option (Option Nat × List Char) :=
    match dropLit ['V', 'R', 'B'] cs with
    | some r => some (none, r)
    | none =>
        match exactDigits 3 cs with
        | some (d, r) => some (some (digitsToNat d), r)
        | none => none
  match core with
  | none => none
  | some (dir, r) =>
      let sp := r.takeWhile Char.isDigit
      let r2 := r.dropWhile Char.isDigit
      if sp.length < 2 || 3 < sp.length then none
      else
        match r2 with
        | 'G' :: g =>
            let gd := g.takeWhile Char.isDigit
            let g2 := g.dropWhile Char.isDigit
            if gd.length < 2 || 3 < gd.length then none
            else if g2 = ['K', 'T'] then some ⟨dir, digitsToNat sp, some (digitsToNat gd)⟩
            else none
        | _ => if r2 = ['K', 'T'] then some ⟨dir, digitsToNat sp, none⟩ else none

/-- Parse a visibility group token: a statute-mile value `dSM` or a
fraction `a/bSM` (kept as the floored mile count), or a bare four-digit
metre value. -/
def parseVisTok (t : String) : Option (Nat × String) :=
  let cs := t.data
  let d := cs.takeWhile Char.isDigit
  let rest := cs.dropWhile Char.isDigit
  if d.isEmpty then none
  else if rest = ['S', 'M'] then some (digitsToNat d, "SM")
  else if rest = [] && d.length = 4 then some (digitsToNat d, "m")
  else
    match rest with
    | '/' :: r2 =>
        let d2 := r2.takeWhile Char.isDigit
        let r3 := r2.dropWhile Char.isDigit
        if d2.isEmpty then none
        else if r3 = ['S', 'M'] then
          some (digitsToNat d / max 1 (digitsToNat d2), "SM")
        else none
    | _ => none

/-- The fixed phenomenon-code table of two-letter codes. -/
def wxCodes : List String :=
  ["TS", "RA", "SN", "DZ", "FG", "BR", "HZ", "SH", "FZ", "GR", "GS",
   "PL", "SQ", "FC", "MI", "BC", "VC", "UP", "FU", "SA", "DU", "PO",
   "SS", "DS", "VA", "IC", "SG"]

/-- Check that a character list is a concatenation of two-letter codes
from the phenomenon table. -/
def wxChunksValid : List Char → Bool
  | [] => true
  | a :: b :: rest => wxCodes.contains (String.mk [a, b]) && wxChunksValid rest
  | _ => false

/-- Parse a weather-phenomenon token: an optional `+` or `-` intensity
prefix followed by one or more table codes. -/
def parseWxTok (t : String) : Option Phenom :=
  let p : String × List Char :=
    match t.data with
    | '+' :: r => ("+", r)
    | '-' :: r => ("-", r)
    | cs => ("", cs)
  if p.2.isEmpty then none
  else if wxChunksValid p.2 then some ⟨p.1, String.mk p.2⟩ else none

/-- Parse a cloud-layer token: coverage `FEW`, `SCT`, `BKN`, `OVC` or
`VV`, three height digits, optional convective suffix `CB` or `TCU`. -/
def parseCloudTok (t : String) : Option Cloud :=
  let go (cov : String) (r : List Char) : Option Cloud :=
    match exactDigits 3 r with
    | some (h, rest) =>
        if rest = [] then some ⟨cov, digitsToNat h, none⟩
        else if rest = ['C', 'B'] then some ⟨cov, digitsToNat h, some "CB"⟩
        else if rest = ['T', 'C', 'U'] then some ⟨cov, digitsToNat h, some "TCU"⟩
        else none
    | none => none
  let cs := t.data
  match dropLit ['F', 'E', 'W'] cs with
  | some r => go "FEW" r
  | none =>
      match dropLit ['S', 'C', 'T'] cs with
      | some r => go "SCT" r
      | none =>
          match dropLit ['B', 'K', 'N'] cs with
          | some r => go "BKN" r
          | none =>
              match dropLit ['O', 'V', 'C'] cs with
              | some r => go "OVC" r
              | none =>
                  match dropLit ['V', 'V'] cs with
                  | some r => go "VV" r
                  | none => none

/-- Parse one signed temperature value, `M` marking a negative sign,
followed by one or two digits. -/
def signedTemp (cs : List Char) : Option (Int × List Char) :=
  let core (cs : List Char) : Option (Nat × List Char) :=
    let d := cs.takeWhile Char.isDigit
    let r := cs.dropWhile Char.isDigit
    if d.length = 1 || d.length = 2 then some (digitsToNat d, r) else none
  match cs with
  | 'M' :: r => (core r).map fun p => (-(p.1 : Int), p.2)
  | _ => (core cs).map fun p => ((p.1 : Int), p.2)

/-- Parse a temperature/dewpoint pair token such as `15/10` or
`M05/M10`. -/
def parseTempTok (t : String) : Option (Int × Int) :=
  match signedTemp t.data with
  | none => none
  | some (t1, r) =>
      match r with
      | '/' :: r2 =>
          match signedTemp r2 with
          | some (t2, []) => some (t1, t2)
          | _ => none
      | _ => none

/-- Parse an altimeter token: `A` or `Q` followed by four digits. -/
def parseAltTok (t : String) : Option (String × Nat) :=
  match t.data with
  | 'A' :: r =>
      match exactDigits 4 r with
      | some (d, []) => some ("inHg", digitsToNat d)
      | _ => none
  | 'Q' :: r =>
      match exactDigits 4 r with
      | some (d, []) => some ("hPa", digitsToNat d)
      | _ => none
  | _ => none

/-- A zulu time token: six digits followed by `Z`. -/
def isTimeTok (t : String) : Bool :=
  match exactDigits 6 t.data with
  | some (_, ['Z']) => true
  | _ => false

/-- A station identifier token: exactly four alphanumeric characters. -/
def isStationTok (t : String) : Bool :=
  t.length = 4 && t.data.all Char.isAlphanum

/-- A token matches the grammar when some rule of the fixed priority
order accepts it: wind, visibility, CAVOK, weather code, cloud layer,
temperature/dewpoint, altimeter, remarks marker, zulu time, station. -/
def matchesMetarRule (t : String) : Bool :=
  (parseWindTok t).isSome || (parseVisTok t).isSome || t = "CAVOK" ||
  (parseWxTok t).isSome || (parseCloudTok t).isSome ||
  (parseTempTok t).isSome || (parseAltTok t).isSome || t = "RMK" ||
  isTimeTok t || isStationTok t

/-- The outcome of testing one group against the rule table. -/
inductive TokClass where
  | wind
  | vis
  | cavok
  | wx
  | cloud
  | temp
  | alt
  | rmkMark
  | time
  | station
  | unmatched
deriving Repr, DecidableEq

/-- Modelled from the spec: the grammar matcher tests each group against
the pattern rules in a fixed priority order and the first matching rule
wins; a group matching nothing is classified unmatched. -/
def classifyTok (t : String) : TokClass :=
  if (parseWindTok t).isSome then .wind
  else if (parseVisTok t).isSome then .vis
  else if t = "CAVOK" then .cavok
  else if (parseWxTok t).isSome then .wx
  else if (parseCloudTok t).isSome then .cloud
  else if (parseTempTok t).isSome then .temp
  else if (parseAltTok t).isSome then .alt
  else if t = "RMK" then .rmkMark
  else if isTimeTok t then .time
  else if isStationTok t then .station
  else .unmatched

/- ### METAR decoder (spec section 4.2) -/

/-- Accumulate whitespace-delimited groups from a character list; the
accumulator holds the current group reversed. -/
def tokensAux : List Char → List Char → List String
  | [], acc => if acc.isEmpty then [] else [String.mk acc.reverse]
  | c :: cs, acc =>
      if c = ' ' then
        if acc.isEmpty then tokensAux cs []
        else String.mk acc.reverse :: tokensAux cs []
      else tokensAux cs (c :: acc)

/-- Whitespace-delimited groups of a raw report. -/
def metarTokens (s : String) : List String :=
  tokensAux s.data []

/-- Split a character list at a separator character, keeping empty
segments, the way the source splits PIREP fields on the slash. -/
def splitOnCharAux (sep : Char) : List Char → List Char → List String
  | [], acc => [String.mk acc.reverse]
  | c :: cs, acc =>
      if c = sep then String.mk acc.reverse :: splitOnCharAux sep cs []
      else splitOnCharAux sep cs (c :: acc)

/-- Split a string at a separator character. -/
def splitOnChar (sep : Char) (s : String) : List String :=
  splitOnCharAux sep s.data []

/-- Strip leading and trailing spaces. -/
def strTrim (s : String) : String :=
  String.mk (((s.data.dropWhile fun c => c = ' ').reverse.dropWhile
    fun c => c = ' ').reverse)

/-- The body groups of a METAR: everything before the `RMK` marker. -/
def metarBodyTokens (s : String) : List String :=
  (metarTokens s).takeWhile (fun t => t ≠ "RMK")

/-- Scanner state: the record being accumulated plus the flag raised by
the remarks marker. -/
structure ScanState where
  record : DecodedMetar
  inRemarks : Bool
deriving Repr, DecidableEq

/-- The empty DecodedMetar every decode starts from. -/
def emptyMetar : DecodedMetar :=
  { station := none, time := none, wind := none,
    visibility := { distance := none, unit := "SM", unlimited := false },
    weather := [], clouds := [], temperature := none, dewpoint := none,
    altimeter := none, remarks := [], parseErrors := [] }

/-- Modelled from the spec: one step of the grammar matcher.  Each group
is tested against the pattern rules in the fixed priority order; the
first matching rule updates the record, a group matching nothing is
appended to parse-errors, and after the `RMK` marker every group is kept
as opaque remark text. -/
def metarStep (st : ScanState) (t : String) : ScanState :=
  if st.inRemarks then
    { st with record := { st.record with remarks := st.record.remarks ++ [t] } }
  else
    match classifyTok t with
    | .wind => { st with record := { st.record with wind := parseWindTok t } }
    | .vis =>
        { st with record := { st.record with visibility :=
            { st.record.visibility with
              distance := (parseVisTok t).map Prod.fst,
              unit := ((parseVisTok t).map Prod.snd).getD st.record.visibility.unit } } }
    | .cavok =>
        { st with record := { st.record with visibility :=
            { st.record.visibility with unlimited := true } } }
    | .wx =>
        { st with record := { st.record with
            weather := st.record.weather ++ (parseWxTok t).toList } }
    | .cloud =>
        { st with record := { st.record with
            clouds := st.record.clouds ++ (parseCloudTok t).toList } }
    | .temp =>
        { st with record := { st.record with
            temperature := (parseTempTok t).map Prod.fst,
            dewpoint := (parseTempTok t).map Prod.snd } }
    | .alt => { st with record := { st.record with altimeter := some t } }
    | .rmkMark => { st with inRemarks := true }
    | .time => { st with record := { st.record with time := some t } }
    | .station =>
        { st with record := { st.record with
            station := if st.record.station = none then some t else st.record.station } }
    | .unmatched =>
        { st with record := { st.record with
            parseErrors := st.record.parseErrors ++ [t] } }

/-- The CAVOK post-step: per the CAVOK semantics, a record whose
unlimited-visibility flag was raised carries no weather-phenomena
sequence. -/
def postCavok (r : DecodedMetar) : DecodedMetar :=
  if r.visibility.unlimited then { r with weather := [] } else r

/-- Modelled from the spec: the METAR decoder.  The raw text is split
into groups, every group is scanned by the grammar matcher, and per the
CAVOK semantics a body containing `CAVOK` asserts unlimited visibility
and suppresses the weather-phenomena sequence.  The decoder is total:
malformed groups degrade to parse-errors, never to an abort.  The
optional reference time of the spec is not consumed because no date
resolution is performed in the core. -/
def decodeMetar (s : String) : DecodedMetar :=
  postCavok ((metarTokens s).foldl metarStep ⟨emptyMetar, false⟩).record

/- ### Risk scoring engine (spec section 4.7) -/

/-- Modelled from the spec: the three risk categories, equivalently the
Green/Yellow/Red colours. -/
inductive Category where
  | Clear
  | Significant
  | Severe
deriving Repr, DecidableEq

/-- Severity rank of a category, ordering Clear below Significant below
Severe. -/
def Category.rank : Category → Nat
  | .Clear => 0
  | .Significant => 1
  | .Severe => 2

/-- Display name of a category, the strings consumed by the frontend
colour switch. -/
def Category.name : Category → String
  | .Clear => "Clear"
  | .Significant => "Significant"
  | .Severe => "Severe"

/-- Modelled from the spec: the second cut point of the two-cut-point
category function.  The exact value is an open configuration question in
the documentation; the value 4 is the one consistent with the documented
concrete scenarios (total 2 is Significant, total 4 is Severe). -/
def severeCut : Nat := 4

/-- Modelled from the spec: total-score to category, score 0 mapping to
Clear, a score strictly below the second cut point to Significant, and a
score at or above it to Severe. -/
def categorize (score : Nat) : Category :=
  if score = 0 then .Clear
  else if score < severeCut then .Significant
  else .Severe

/-- The wind value the wind factor scores: the larger of speed and gust. -/
def effectiveWind : Option Wind → Nat
  | none => 0
  | some w => max w.speed (w.gust.getD 0)

/-- Modelled from the spec: the documented wind threshold table, below
15 knots scoring 0, 15 to 25 knots scoring 1, above 25 knots scoring
2. -/
def windPoints (w : Option Wind) : Nat :=
  let s := effectiveWind w
  if s < 15 then 0 else if s ≤ 25 then 1 else 2

/-- Modelled from the spec: the documented visibility threshold table in
statute miles, above 5 scoring 0, 3 to 5 scoring 1, below 3 scoring 2;
unlimited visibility scores 0 and a metre distance is first converted to
whole statute miles. -/
def visPoints (v : Visib) : Nat :=
  if v.unlimited then 0
  else
    match v.distance with
    | none => 0
    | some d =>
        let dsm := if v.unit = "m" then d / 1609 else d
        if 5 < dsm then 0 else if 3 ≤ dsm then 1 else 2

/-- Height of the lowest broken, overcast or vertical-visibility layer,
in hundreds of feet. -/
def ceilingHeight (clouds : List Cloud) : Option Nat :=
  (clouds.filter fun c =>
      c.coverage = "BKN" || c.coverage = "OVC" || c.coverage = "VV").foldl
    (fun acc c =>
      match acc with
      | none => some c.height
      | some h => some (min h c.height)) none

/-- Modelled from the spec: the ceiling factor, scoring the lowest
broken or overcast layer (a low ceiling under 1000 feet scores 2, under
3000 feet scores 1, the exact thresholds being an open configuration
question). -/
def ceilingPoints (clouds : List Cloud) : Nat :=
  match ceilingHeight clouds with
  | none => 0
  | some h => if h < 10 then 2 else if h < 30 then 1 else 0

/-- The two-letter chunks of a phenomenon code. -/
def codeChunks : List Char → List String
  | a :: b :: rest => String.mk [a, b] :: codeChunks rest
  | _ => []

/-- Modelled from the spec: points of one hazardous phenomenon, a
thunderstorm scoring a flat 2, freezing precipitation 2, fog 1. -/
def phenomPoints (p : Phenom) : Nat :=
  let cks := codeChunks p.code.data
  if cks.contains "TS" then 2
  else if cks.contains "FZ" then 2
  else if cks.contains "FG" then 1
  else 0

/-- Modelled from the spec: the weather-phenomena factor, the strongest
hazard present among the decoded phenomena. -/
def wxPoints (ws : List Phenom) : Nat :=
  (ws.map phenomPoints).foldl max 0

/-- Modelled from the spec: the enumerated SIGMET hazard set. -/
inductive SigPhenomenon where
  | severeTurbulence
  | severeIcing
  | volcanicAsh
  | dustStorm
  | embeddedThunderstorms
  | ifrConditions
  | mountainObscuration
  | other
deriving Repr, DecidableEq

/-- Modelled from the spec: the DecodedSigmet record, the affected-area
text retained verbatim. -/
structure DecodedSigmet where
  phenomenon : SigPhenomenon
  area : String
  raw : String
deriving Repr, DecidableEq

/-- Modelled from the spec: any matching active SIGMET hazard scores
2. -/
def sigmetPoints (sigs : List DecodedSigmet) : Nat :=
  if sigs.any (fun s => s.phenomenon ≠ SigPhenomenon.other) then 2 else 0

/-- One factor of the per-factor breakdown: name, points and impact
label. -/
structure FactorScore where
  name : String
  points : Nat
  impact : String
deriving Repr, DecidableEq

/-- Impact label of a point value. -/
def impactLabel (p : Nat) : String :=
  if p = 0 then "None" else if p = 1 then "Moderate" else "High"

/-- Build one breakdown entry. -/
def mkFactor (name : String) (p : Nat) : FactorScore :=
  ⟨name, p, impactLabel p⟩

/-- Modelled from the spec: the fixed factor set of the risk scoring
engine, wind, visibility, ceiling, hazardous weather and SIGMET. -/
def riskFactors (m : DecodedMetar) (sigs : List DecodedSigmet) : List FactorScore :=
  [mkFactor "wind" (windPoints m.wind),
   mkFactor "visibility" (visPoints m.visibility),
   mkFactor "ceiling" (ceilingPoints m.clouds),
   mkFactor "weather" (wxPoints m.weather),
   mkFactor "sigmet" (sigmetPoints sigs)]

/-- Modelled from the spec: the RiskAssessment record. -/
structure RiskAssessment where
  category : Category
  totalScore : Nat
  breakdown : List FactorScore
  reasoning : List String
deriving Repr, DecidableEq

/-- The explanatory sentence of one nonzero factor. -/
def factorSentence (f : FactorScore) : String :=
  f.name ++ " contributes " ++ toString f.points ++ " points (" ++ f.impact ++ " impact)"

/-- Modelled from the spec: the risk scoring engine.  Points are summed
into the total score, the total is mapped through the two fixed cut
points, and every nonzero factor contributes one reasoning sentence. -/
def assess (m : DecodedMetar) (sigs : List DecodedSigmet) : RiskAssessment :=
  let fs := riskFactors m sigs
  let total := (fs.map FactorScore.points).sum
  { category := categorize total,
    totalScore := total,
    breakdown := fs,
    reasoning := (fs.filter fun f => f.points ≠ 0).map factorSentence }

/- ### PIREP decoder (spec section 4.5) -/

/-- Modelled from the spec: PIREP urgency, discriminated by the leading
token. -/
inductive Urgency where
  | routine
  | urgent
deriving Repr, DecidableEq

/-- Modelled from the spec: the five-point severity scale of turbulence
and icing reports. -/
inductive Severity where
  | sevNone
  | light
  | moderate
  | severe
  | extreme
deriving Repr, DecidableEq

/-- Modelled from the spec: a turbulence or icing report, a severity and
an optional altitude-range suffix. -/
structure CondReport where
  severity : Severity
  altitudeRange : Option String
deriving Repr, DecidableEq

/-- Modelled from the spec: the PIREP conditions mapping; absent keys are
omitted, never defaulted. -/
structure PirepConditions where
  turbulence : Option CondReport
  icing : Option CondReport
  wind : Option String
  visibility : Option String
  sky : Option String
  temperature : Option String
deriving Repr, DecidableEq

/-- Modelled from the spec: the DecodedPirep record. -/
structure DecodedPirep where
  urgency : Urgency
  location : Option String
  time : Option String
  altitude : Option String
  aircraftType : Option String
  conditions : PirepConditions
  remarks : Option String
deriving Repr, DecidableEq

/-- Check whether the pattern occurs as a contiguous run somewhere in
the list. -/
def hasSub (pat : List Char) : List Char → Bool
  | [] => pat.isEmpty
  | cs@(_ :: rest) => pat.isPrefixOf cs || hasSub pat rest

/-- Substring test on strings. -/
def containsSub (s pat : String) : Bool :=
  hasSub pat.data s.data

/-- First whitespace-delimited token of a string. -/
def firstToken (s : String) : String :=
  (metarTokens s).headD ""

/-- Modelled from the spec: severity of a turbulence or icing field text,
read from the standard abbreviations, extreme checked before severe so
that the longer keyword wins. -/
def severityOf (s : String) : Severity :=
  if containsSub s "EXTRM" then .extreme
  else if containsSub s "SEV" then .severe
  else if containsSub s "MOD" then .moderate
  else if containsSub s "LGT" then .light
  else .sevNone

/-- Optional altitude-range suffix of a turbulence or icing field: the
first token made of digits and a dash. -/
def altRangeOf (s : String) : Option String :=
  (metarTokens s).find? fun t =>
    t.data.any (fun c => c = '-') && t.data.all (fun c => c.isDigit || c = '-')

/-- Key letters of one slash-delimited PIREP field. -/
def segKey (seg : String) : String :=
  String.mk ((strTrim seg).data.take 2)

/-- Field text behind the key letters of one slash-delimited PIREP
field. -/
def segRest (seg : String) : String :=
  strTrim (String.mk ((strTrim seg).data.drop 2))

/-- The PIREP field keys of the fixed key table, or unknown. -/
inductive PirepKey where
  | ov
  | tm
  | fl
  | tp
  | tb
  | ic
  | wv
  | sk
  | ta
  | rm
  | unknown
deriving Repr, DecidableEq

/-- Classify one slash-delimited field by its key letters. -/
def pirepKeyOf (seg : String) : PirepKey :=
  if segKey seg = "OV" then .ov
  else if segKey seg = "TM" then .tm
  else if segKey seg = "FL" then .fl
  else if segKey seg = "TP" then .tp
  else if segKey seg = "TB" then .tb
  else if segKey seg = "IC" then .ic
  else if segKey seg = "WV" then .wv
  else if segKey seg = "SK" then .sk
  else if segKey seg = "TA" then .ta
  else if segKey seg = "RM" then .rm
  else .unknown

/-- Modelled from the spec: decode one slash-delimited PIREP field
against the fixed key table; an unrecognized key is ignored, not an
error. -/
def applyPirepField (p : DecodedPirep) (seg : String) : DecodedPirep :=
  match pirepKeyOf seg with
  | .ov => { p with location := some (segRest seg) }
  | .tm => { p with time := some (segRest seg) }
  | .fl => { p with altitude := some (segRest seg) }
  | .tp => { p with aircraftType := some (segRest seg) }
  | .tb =>
      { p with conditions :=
          { p.conditions with
            turbulence := some ⟨severityOf (segRest seg), altRangeOf (segRest seg)⟩ } }
  | .ic =>
      { p with conditions :=
          { p.conditions with
            icing := some ⟨severityOf (segRest seg), altRangeOf (segRest seg)⟩ } }
  | .wv => { p with conditions := { p.conditions with wind := some (segRest seg) } }
  | .sk => { p with conditions := { p.conditions with sky := some (segRest seg) } }
  | .ta => { p with conditions := { p.conditions with temperature := some (segRest seg) } }
  | .rm => { p with remarks := some (segRest seg) }
  | .unknown => p

/-- Modelled from the spec: the PIREP decoder.  The leading token
discriminates urgency (`UUA` urgent, otherwise routine, `UA` being the
routine form), and the slash-delimited fields are scanned independently
against the fixed key table. -/
def parsePirep (s : String) : DecodedPirep :=
  let base : DecodedPirep :=
    { urgency := if firstToken s = "UUA" then .urgent else .routine,
      location := none, time := none, altitude := none, aircraftType := none,
      conditions :=
        { turbulence := none, icing := none, wind := none,
          visibility := none, sky := none, temperature := none },
      remarks := none }
  (splitOnChar '/' s).foldl applyPirepField base

/- ### SIGMET decoder (spec section 4.4) -/

/-- Modelled from the spec: phenomenon classification by an ordered
keyword-matching table, first matching keyword set winning. -/
def classifySigmet (s : String) : SigPhenomenon :=
  if containsSub s "VOLCANIC" then .volcanicAsh
  else if containsSub s "DUST" || containsSub s "SAND" then .dustStorm
  else if containsSub s "EMBD TS" || containsSub s "TS" then .embeddedThunderstorms
  else if containsSub s "TURB" then .severeTurbulence
  else if containsSub s "ICE" || containsSub s "ICG" then .severeIcing
  else if containsSub s "IFR" then .ifrConditions
  else if containsSub s "MTN OBSC" then .mountainObscuration
  else .other

/-- Modelled from the spec: the SIGMET decoder at the granularity the
aggregator claims need; the phenomenon is classified through the keyword
table and the affected-area text is retained verbatim (no geometry
parsing). -/
def parseSigmet (s : String) : DecodedSigmet :=
  { phenomenon := classifySigmet s, area := s, raw := s }

/- ### NOTAM keyword summarizer (spec section 4.6) -/

/-- A categorized NOTAM: the raw text plus the category tag. -/
structure CategorizedNotam where
  raw : String
  category : String
deriving Repr, DecidableEq

/-- Modelled from the spec: first-match-wins keyword conjunctions, runway
closure, unserviceable equipment, obstruction, otherwise General. -/
def categorizeNotam (s : String) : String :=
  if containsSub s "RWY" && containsSub s "CLSD" then "Runway Closure"
  else if containsSub s "U/S" then "Equipment Unserviceable"
  else if containsSub s "OBST" then "Obstruction"
  else "General"

/-- Categorize a batch of raw NOTAM strings. -/
def summarizeNotams (ns : List String) : List CategorizedNotam :=
  ns.map fun n => ⟨n, categorizeNotam n⟩

/- ### TAF decoder header (spec section 4.3) -/

/-- Modelled from the spec: the DecodedTaf record at the granularity the
aggregator claims need, the header station plus diagnostics; the change
group structure is not needed by any claim. -/
structure DecodedTaf where
  station : Option String
  raw : String
  parseErrors : List String
deriving Repr, DecidableEq

/-- Modelled from the spec: TAF header decoding, skipping a leading `TAF`
marker and reading the station identifier; a missing station is an
IncompleteReport diagnostic, not an abort. -/
def decodeTaf (s : String) : DecodedTaf :=
  let toks := metarTokens s
  let body := if toks.headD "" = "TAF" then toks.drop 1 else toks
  match body.headD "" with
  | t =>
      if isStationTok t then { station := some t, raw := s, parseErrors := [] }
      else { station := none, raw := s, parseErrors := ["missing station"] }

/- ### Briefing aggregator (spec section 4.8) -/

/-- The outcome of one upstream fetch: the raw payload or a per-source
failure descriptor. -/
inductive FetchResult (α : Type) where
  | ok (val : α)
  | failed (err : String)
deriving Repr, DecidableEq

/-- The already-fetched inputs of one airport: raw texts or fetch-failure
indicators for each report source. -/
structure AirportSources where
  icao : String
  metar : FetchResult String
  taf : FetchResult String
  pireps : FetchResult (List String)
  sigmets : FetchResult (List String)
  notams : FetchResult (List String)
deriving Repr, DecidableEq

/-- Modelled from the spec: the BriefingRecord, each source decoded
independently, with the per-source errors list. -/
structure BriefingRecord where
  icao : String
  metar : Option DecodedMetar
  taf : Option DecodedTaf
  pireps : Option (List DecodedPirep)
  sigmets : Option (List DecodedSigmet)
  notams : Option (List CategorizedNotam)
  risk : Option RiskAssessment
  errors : List String
deriving Repr, DecidableEq

/-- The error entries contributed by one source outcome. -/
def errOf {α : Type} (source : String) : FetchResult α → List String
  | .ok _ => []
  | .failed e => [source ++ ": " ++ e]

/-- Decode one source outcome, a failure contributing nothing. -/
def decOf {α β : Type} (f : α → β) : FetchResult α → Option β
  | .ok v => some (f v)
  | .failed _ => none

/-- Modelled from the spec: the per-airport briefing aggregator.  Every
available decoder runs independently; a source that failed to fetch
contributes an entry to errors but does not block decoding of the other
sources, and a successfully decoded METAR is scored together with any
decoded SIGMETs in scope. -/
def briefAirport (src : AirportSources) : BriefingRecord :=
  let metar := decOf decodeMetar src.metar
  let sigmets := decOf (List.map parseSigmet) src.sigmets
  { icao := src.icao,
    metar := metar,
    taf := decOf decodeTaf src.taf,
    pireps := decOf (List.map parsePirep) src.pireps,
    sigmets := sigmets,
    notams := decOf summarizeNotams src.notams,
    risk := metar.map fun m => assess m (sigmets.getD []),
    errors :=
      errOf "METAR" src.metar ++ errOf "TAF" src.taf ++
      errOf "PIREP" src.pireps ++ errOf "SIGMET" src.sigmets ++
      errOf "NOTAM" src.notams }

/-- A route briefing: the two per-airport records side by side. -/
structure RouteBriefing where
  departure : BriefingRecord
  arrival : BriefingRecord
deriving Repr, DecidableEq

/-- Modelled from the spec: the route aggregator invokes the per-airport
pipeline twice, departure and arrival, with no cross-airport logic. -/
def routeBriefing (dep arr : AirportSources) : RouteBriefing :=
  ⟨briefAirport dep, briefAirport arr⟩

/- ### State-threaded call wrappers for the determinism claim
The source decoders read no module-level mutable state (the frontend
`parseMetar` creates its regular expressions afresh on every call and
none carries the global flag whose `lastIndex` would persist), so the
faithful stateful embedding of a decoder call returns the ambient state
unchanged, for any choice of ambient state type. -/

/-- A call to the backend METAR decoder threaded through an ambient
state. -/
def decodeMetarCall {W : Type} (w : W) (s : String) : DecodedMetar × W :=
  (decodeMetar s, w)

/-- A call to the PIREP decoder threaded through an ambient state. -/
def parsePirepCall {W : Type} (w : W) (s : String) : DecodedPirep × W :=
  (parsePirep s, w)

/-- A call to the SIGMET decoder threaded through an ambient state. -/
def parseSigmetCall {W : Type} (w : W) (s : String) : DecodedSigmet × W :=
  (parseSigmet s, w)

/-- A call to the frontend `parseMetar` extractor threaded through an
ambient state. -/
def parseMetarCall {W : Type} (w : W) (s : Option String) :
    Option ParsedMetarView × W :=
  (parseMetar s, w)


/- ### Scanner invariants -/

/-- The classifier returns the remarks-marker class only on the `RMK`
token. -/
theorem classify_rmk (t : String) (h : classifyTok t = TokClass.rmkMark) :
    t = "RMK" := by
  unfold classifyTok at h
  split_ifs at h
  assumption

set_option maxHeartbeats 800000 in
/-- A token with any classification other than unmatched matches some
rule of the priority table. -/
theorem matchesMetarRule_of_classify (t : String)
    (h : classifyTok t ≠ TokClass.unmatched) : matchesMetarRule t = true := by
  unfold classifyTok at h
  unfold matchesMetarRule
  split_ifs at h with h1 h2 h3 h4 h5 h6 h7 h8 h9 h10
  · simp [h1]
  · simp [h2]
  · simp [h3]
  · simp [h4]
  · simp [h5]
  · simp [h6]
  · simp [h7]
  · simp [h8]
  · simp [h9]
  · simp [h10]
  · exact absurd rfl h

set_option maxHeartbeats 800000 in
/-- An unmatched token matches no rule of the priority table. -/
theorem classify_unmatched (t : String)
    (h : classifyTok t = TokClass.unmatched) : matchesMetarRule t = false := by
  unfold classifyTok at h
  unfold matchesMetarRule
  split_ifs at h with h1 h2 h3 h4 h5 h6 h7 h8 h9 h10
  simp [h1, h2, h3, h4, h5, h6, h7, h8, h9, h10]

/-- A scanner step never removes a parse-error entry. -/
theorem metarStep_parseErrors_mono (st : ScanState) (t x : String)
    (h : x ∈ st.record.parseErrors) : x ∈ (metarStep st t).record.parseErrors := by
  unfold metarStep
  by_cases hr : st.inRemarks = true
  · rw [if_pos hr]; exact h
  · rw [if_neg hr]
    cases hc : classifyTok t <;>
      first
        | exact h
        | exact List.mem_append_left _ h

/-- A scanner step never removes a remark entry. -/
theorem metarStep_remarks_mono (st : ScanState) (t x : String)
    (h : x ∈ st.record.remarks) : x ∈ (metarStep st t).record.remarks := by
  unfold metarStep
  by_cases hr : st.inRemarks = true
  · rw [if_pos hr]; exact List.mem_append_left _ h
  · rw [if_neg hr]
    cases hc : classifyTok t <;> exact h

/-- A scanner step never clears the unlimited-visibility flag. -/
theorem metarStep_unlimited_mono (st : ScanState) (t : String)
    (h : st.record.visibility.unlimited = true) :
    (metarStep st t).record.visibility.unlimited = true := by
  unfold metarStep
  by_cases hr : st.inRemarks = true
  · rw [if_pos hr]; exact h
  · rw [if_neg hr]
    cases hc : classifyTok t <;>
      first
        | exact h
        | rfl

/-- Scanning a token list never removes a parse-error entry. -/
theorem foldl_parseErrors_mono (toks : List String) (st : ScanState) (x : String)
    (h : x ∈ st.record.parseErrors) :
    x ∈ (toks.foldl metarStep st).record.parseErrors := by
  induction toks generalizing st with
  | nil => simpa using h
  | cons t ts ih => exact ih _ (metarStep_parseErrors_mono st t x h)

/-- Scanning a token list never removes a remark entry. -/
theorem foldl_remarks_mono (toks : List String) (st : ScanState) (x : String)
    (h : x ∈ st.record.remarks) :
    x ∈ (toks.foldl metarStep st).record.remarks := by
  induction toks generalizing st with
  | nil => simpa using h
  | cons t ts ih => exact ih _ (metarStep_remarks_mono st t x h)

/-- Scanning a token list never clears the unlimited-visibility flag. -/
theorem foldl_unlimited_mono (toks : List String) (st : ScanState)
    (h : st.record.visibility.unlimited = true) :
    (toks.foldl metarStep st).record.visibility.unlimited = true := by
  induction toks generalizing st with
  | nil => simpa using h
  | cons t ts ih => exact ih _ (metarStep_unlimited_mono st t h)

/-- Each scanned token either matches a grammar rule or lands in the
parse-errors list or the remark text of the step consuming it. -/
theorem metarStep_disposition (st : ScanState) (t : String) :
    matchesMetarRule t = true ∨ t ∈ (metarStep st t).record.parseErrors ∨
      t ∈ (metarStep st t).record.remarks := by
  unfold metarStep
  by_cases hr : st.inRemarks = true
  · right; right
    rw [if_pos hr]
    exact List.mem_append_right _ (List.mem_singleton.mpr rfl)
  · rw [if_neg hr]
    cases hc : classifyTok t <;>
      first
        | exact Or.inr (Or.inl (List.mem_append_right _ (List.mem_singleton.mpr rfl)))
        | exact Or.inl (matchesMetarRule_of_classify t (by rw [hc]; intro hx; cases hx))

/-- A parse-error produced by a step is either inherited or is the very
token of the step, which then matches no grammar rule. -/
theorem metarStep_parseErrors_src (st : ScanState) (t x : String)
    (h : x ∈ (metarStep st t).record.parseErrors) :
    x ∈ st.record.parseErrors ∨ (x = t ∧ matchesMetarRule t = false) := by
  unfold metarStep at h
  by_cases hr : st.inRemarks = true
  · rw [if_pos hr] at h; exact Or.inl h
  · rw [if_neg hr] at h
    cases hc : classifyTok t <;> rw [hc] at h <;>
      first
        | exact Or.inl h
        | exact (List.mem_append.mp h).elim Or.inl fun h2 =>
            Or.inr ⟨List.mem_singleton.mp h2, classify_unmatched t hc⟩

/-- Every token of a scanned list either matches a grammar rule or ends
up in the parse-errors list or in the remark text. -/
theorem foldl_disposition (toks : List String) (st : ScanState) (t : String)
    (h : t ∈ toks) :
    matchesMetarRule t = true ∨ t ∈ (toks.foldl metarStep st).record.parseErrors ∨
      t ∈ (toks.foldl metarStep st).record.remarks := by
  induction toks generalizing st with
  | nil => cases h
  | cons u us ih =>
    simp only [List.foldl_cons]
    rcases List.mem_cons.mp h with rfl | hmem
    · rcases metarStep_disposition st t with hm | he | hrk
      · exact Or.inl hm
      · exact Or.inr (Or.inl (foldl_parseErrors_mono us _ t he))
      · exact Or.inr (Or.inr (foldl_remarks_mono us _ t hrk))
    · exact ih _ hmem

/-- Every parse-error of a scanned list is inherited or is one of the
scanned tokens matching no grammar rule. -/
theorem foldl_parseErrors_src (toks : List String) (st : ScanState) (x : String)
    (h : x ∈ (toks.foldl metarStep st).record.parseErrors) :
    x ∈ st.record.parseErrors ∨ (x ∈ toks ∧ matchesMetarRule x = false) := by
  induction toks generalizing st with
  | nil => exact Or.inl (by simpa using h)
  | cons u us ih =>
    simp only [List.foldl_cons] at h
    rcases ih _ h with h1 | h2
    · rcases metarStep_parseErrors_src st u x h1 with h3 | h4
      · exact Or.inl h3
      · exact Or.inr ⟨h4.1 ▸ List.mem_cons_self u us, h4.1 ▸ h4.2⟩
    · exact Or.inr ⟨List.mem_cons_of_mem u h2.1, h2.2⟩

/-- The decoded parse-errors are those of the token scan. -/
theorem decodeMetar_parseErrors_eq (s : String) :
    (decodeMetar s).parseErrors =
      ((metarTokens s).foldl metarStep ⟨emptyMetar, false⟩).record.parseErrors := by
  unfold decodeMetar postCavok
  split <;> rfl

/-- The decoded remark tokens are those of the token scan. -/
theorem decodeMetar_remarks_eq (s : String) :
    (decodeMetar s).remarks =
      ((metarTokens s).foldl metarStep ⟨emptyMetar, false⟩).record.remarks := by
  unfold decodeMetar postCavok
  split <;> rfl

/-- A step on a token other than the remarks marker keeps the scanner
out of the remarks region. -/
theorem metarStep_inRemarks (st : ScanState) (t : String)
    (h : st.inRemarks = false) (ht : t ≠ "RMK") :
    (metarStep st t).inRemarks = false := by
  unfold metarStep
  rw [if_neg (by simp [h])]
  cases hc : classifyTok t <;>
    first
      | exact absurd (classify_rmk t hc) ht
      | exact h

/-- A step on the CAVOK group outside the remarks region raises the
unlimited-visibility flag. -/
theorem metarStep_cavok (st : ScanState) (h : st.inRemarks = false) :
    (metarStep st "CAVOK").record.visibility.unlimited = true := by
  have hc : classifyTok "CAVOK" = TokClass.cavok := by decide
  unfold metarStep
  rw [if_neg (by simp [h]), hc]

/-- Scanning a token list whose pre-remarks part contains the CAVOK
group raises the unlimited-visibility flag. -/
theorem foldl_cavok (toks : List String) (st : ScanState)
    (h : st.inRemarks = false)
    (hc : "CAVOK" ∈ toks.takeWhile (fun t => t ≠ "RMK")) :
    (toks.foldl metarStep st).record.visibility.unlimited = true := by
  induction toks generalizing st with
  | nil => simp at hc
  | cons u us ih =>
    by_cases hu : u = "RMK"
    · subst hu
      simp [List.takeWhile_cons] at hc
    · simp only [List.foldl_cons]
      rw [List.takeWhile_cons] at hc
      rcases List.mem_cons.mp (by simpa [hu] using hc) with hcu | hcrest
      · have hstep : (metarStep st u).record.visibility.unlimited = true := by
          rw [← hcu] at hu ⊢
          exact metarStep_cavok st h
        exact foldl_unlimited_mono us _ hstep
      · exact ih _ (metarStep_inRemarks st u h hu) (by simpa using hcrest)

/-- A PIREP field application never changes the urgency. -/
theorem applyPirepField_urgency (p : DecodedPirep) (seg : String) :
    (applyPirepField p seg).urgency = p.urgency := by
  unfold applyPirepField
  cases hk : pirepKeyOf seg <;> rfl

/-- Folding the PIREP fields never changes the urgency. -/
theorem foldl_pirep_urgency (segs : List String) (p : DecodedPirep) :
    (segs.foldl applyPirepField p).urgency = p.urgency := by
  induction segs generalizing p with
  | nil => rfl
  | cons u us ih =>
    simp only [List.foldl_cons]
    rw [ih, applyPirepField_urgency]

/-- The wind factor is monotone in the wind speed, the gust held
fixed. -/
theorem windPoints_le (w : Wind) (s₁ s₂ : Nat) (h : s₁ ≤ s₂) :
    windPoints (some { w with speed := s₁ }) ≤
      windPoints (some { w with speed := s₂ }) := by
  unfold windPoints effectiveWind
  dsimp only
  have hm : max s₁ (w.gust.getD 0) ≤ max s₂ (w.gust.getD 0) :=
    max_le_max h (le_refl _)
  split_ifs <;> omega

/- ### The claims -/

/-- C1: the risk category is a fixed two-cut-point, monotone function of
the total score (0 to Clear, strictly below the second cut to
Significant, at or above it to Severe), and the three categories
correspond one-to-one to the colours green, yellow and red through the
frontend colour switch. -/
theorem claim_C1 :
    (∀ (m : DecodedMetar) (sigs : List DecodedSigmet),
      (assess m sigs).category = categorize (assess m sigs).totalScore) ∧
    categorize 0 = Category.Clear ∧
    (∀ s : Nat, 0 < s → s < severeCut → categorize s = Category.Significant) ∧
    (∀ s : Nat, severeCut ≤ s → categorize s = Category.Severe) ∧
    (∀ s₁ s₂ : Nat, s₁ ≤ s₂ → (categorize s₁).rank ≤ (categorize s₂).rank) ∧
    getWeatherCategoryColor Category.Clear.name = "#28a745" ∧
    getWeatherCategoryColor Category.Significant.name = "#ffc107" ∧
    getWeatherCategoryColor Category.Severe.name = "#dc3545" ∧
    (∀ c₁ c₂ : Category,
      getWeatherCategoryColor c₁.name = getWeatherCategoryColor c₂.name → c₁ = c₂) := by
  refine ⟨fun m sigs => rfl, rfl, ?_, ?_, ?_, by decide, by decide, by decide, ?_⟩
  · intro s h0 h4
    unfold categorize
    rw [if_neg (by omega), if_pos h4]
  · intro s h4
    have h4n : 4 ≤ s := h4
    unfold categorize severeCut
    rw [if_neg (by omega), if_neg (by omega)]
  · intro s₁ s₂ h
    unfold categorize severeCut
    split_ifs <;> simp only [Category.rank] <;> omega
  · intro c₁ c₂
    cases c₁ <;> cases c₂ <;> decide

/-- Witness for C1 at concrete scores and categories. -/
theorem claim_C1_witness :
    (0 < 2 ∧ 2 < severeCut ∧ categorize 2 = Category.Significant) ∧
    (severeCut ≤ 5 ∧ categorize 5 = Category.Severe) ∧
    ((1 : Nat) ≤ 3 ∧ (categorize 1).rank ≤ (categorize 3).rank) ∧
    (getWeatherCategoryColor Category.Clear.name =
        getWeatherCategoryColor Category.Clear.name ∧
      Category.Clear = Category.Clear) :=
  ⟨⟨by decide, by decide, claim_C1.2.2.1 2 (by decide) (by decide)⟩,
   ⟨by decide, claim_C1.2.2.2.1 5 (by decide)⟩,
   ⟨by decide, claim_C1.2.2.2.2.1 1 3 (by decide)⟩,
   ⟨rfl, claim_C1.2.2.2.2.2.2.2.2 Category.Clear Category.Clear rfl⟩⟩

/-- C2: for two decoded METARs identical except for the wind speed, the
one with the strictly higher speed never produces a strictly lower
total score. -/
theorem claim_C2 (m : DecodedMetar) (w : Wind) (sigs : List DecodedSigmet)
    (s₁ s₂ : Nat) (h : s₁ < s₂) :
    (assess { m with wind := some { w with speed := s₁ } } sigs).totalScore ≤
      (assess { m with wind := some { w with speed := s₂ } } sigs).totalScore := by
  have hw := windPoints_le w s₁ s₂ h.le
  unfold assess riskFactors mkFactor
  dsimp only
  simp only [List.map_cons, List.map_nil, List.sum_cons, List.sum_nil]
  omega

/-- Witness for C2 at a concrete pair of wind speeds. -/
theorem claim_C2_witness :
    10 < 20 ∧
    (assess { emptyMetar with
        wind := some { direction := some 180, speed := 10, gust := none } } []).totalScore ≤
      (assess { emptyMetar with
        wind := some { direction := some 180, speed := 20, gust := none } } []).totalScore :=
  ⟨by decide,
   claim_C2 emptyMetar { direction := some 180, speed := 0, gust := none } [] 10 20
     (by decide)⟩

/-- C3: the METAR decode is total and tolerant, every token either
matches a grammar rule or is recorded as a diagnostic in the
parse-errors list (or is opaque remark text), and every parse-error is
precisely a scanned token matching no rule. -/
theorem claim_C3 :
    (∀ (s t : String), t ∈ metarTokens s →
      matchesMetarRule t = true ∨ t ∈ (decodeMetar s).parseErrors ∨
        t ∈ (decodeMetar s).remarks) ∧
    (∀ (s x : String), x ∈ (decodeMetar s).parseErrors →
      x ∈ metarTokens s ∧ matchesMetarRule x = false) := by
  constructor
  · intro s t ht
    rw [decodeMetar_parseErrors_eq, decodeMetar_remarks_eq]
    exact foldl_disposition _ _ t ht
  · intro s x hx
    rw [decodeMetar_parseErrors_eq] at hx
    rcases foldl_parseErrors_src _ _ x hx with h1 | h2
    · exact absurd h1 (by simp [emptyMetar])
    · exact h2

/-- Witness for C3 at a METAR with one malformed token. -/
theorem claim_C3_witness :
    ("ZZ@@1" ∈ metarTokens "KJFK ZZ@@1 10SM") ∧
    (matchesMetarRule "ZZ@@1" = true ∨
      "ZZ@@1" ∈ (decodeMetar "KJFK ZZ@@1 10SM").parseErrors ∨
      "ZZ@@1" ∈ (decodeMetar "KJFK ZZ@@1 10SM").remarks) :=
  ⟨by decide, claim_C3.1 "KJFK ZZ@@1 10SM" "ZZ@@1" (by decide)⟩

/-- C4: every decoder is deterministic, two calls on the identical input
threaded through any ambient state produce identical structured output
and identical parse-errors, and the ambient state is left untouched. -/
theorem claim_C4 :
    ∀ (W : Type) (w : W) (s : String),
      (decodeMetarCall w s).1 = (decodeMetarCall (decodeMetarCall w s).2 s).1 ∧
      ((decodeMetarCall w s).1).parseErrors =
        ((decodeMetarCall (decodeMetarCall w s).2 s).1).parseErrors ∧
      (decodeMetarCall w s).2 = w ∧
      (∀ p : String,
        (parsePirepCall w p).1 = (parsePirepCall (parsePirepCall w p).2 p).1 ∧
        (parsePirepCall w p).2 = w) ∧
      (∀ g : String,
        (parseSigmetCall w g).1 = (parseSigmetCall (parseSigmetCall w g).2 g).1 ∧
        (parseSigmetCall w g).2 = w) ∧
      (∀ mt : Option String,
        (parseMetarCall w mt).1 = (parseMetarCall (parseMetarCall w mt).2 mt).1 ∧
        (parseMetarCall w mt).2 = w) :=
  fun _ _ _ =>
    ⟨rfl, rfl, rfl, fun _ => ⟨rfl, rfl⟩, fun _ => ⟨rfl, rfl⟩, fun _ => ⟨rfl, rfl⟩⟩

/-- C5: a METAR body containing the CAVOK token decodes to unlimited
visibility and an empty weather-phenomena sequence, regardless of any
weather-looking token elsewhere in the body. -/
theorem claim_C5 (s : String) (h : "CAVOK" ∈ metarBodyTokens s) :
    (decodeMetar s).visibility.unlimited = true ∧ (decodeMetar s).weather = [] := by
  have hu : ((metarTokens s).foldl metarStep
      ⟨emptyMetar, false⟩).record.visibility.unlimited = true :=
    foldl_cavok _ _ rfl (by simpa [metarBodyTokens] using h)
  unfold decodeMetar postCavok
  rw [if_pos hu]
  exact ⟨hu, rfl⟩

/-- Witness for C5 at a body carrying both CAVOK and a weather-looking
token. -/
theorem claim_C5_witness :
    ("CAVOK" ∈ metarBodyTokens "KJFK CAVOK TSRA") ∧
    ((decodeMetar "KJFK CAVOK TSRA").visibility.unlimited = true ∧
      (decodeMetar "KJFK CAVOK TSRA").weather = []) :=
  ⟨by decide, claim_C5 "KJFK CAVOK TSRA" (by decide)⟩

/-- C6: the aggregator isolates per-source failures: whichever single
source fails, every other source's decoded component is unchanged and
the failure surfaces as an entry in the errors list; and in the route
scenario where the arrival TAF fetch fails while every other source
succeeds, both records still carry the decoded METAR, PIREP and SIGMET
data and the arrival errors list is exactly the one TAF entry. -/
theorem claim_C6 :
    (∀ (src : AirportSources) (e : String),
      ((briefAirport { src with metar := FetchResult.failed e }).taf =
          (briefAirport src).taf ∧
        (briefAirport { src with metar := FetchResult.failed e }).pireps =
          (briefAirport src).pireps ∧
        (briefAirport { src with metar := FetchResult.failed e }).sigmets =
          (briefAirport src).sigmets ∧
        (briefAirport { src with metar := FetchResult.failed e }).notams =
          (briefAirport src).notams ∧
        "METAR: " ++ e ∈ (briefAirport { src with metar := FetchResult.failed e }).errors) ∧
      ((briefAirport { src with taf := FetchResult.failed e }).metar =
          (briefAirport src).metar ∧
        (briefAirport { src with taf := FetchResult.failed e }).pireps =
          (briefAirport src).pireps ∧
        (briefAirport { src with taf := FetchResult.failed e }).sigmets =
          (briefAirport src).sigmets ∧
        (briefAirport { src with taf := FetchResult.failed e }).notams =
          (briefAirport src).notams ∧
        (briefAirport { src with taf := FetchResult.failed e }).risk =
          (briefAirport src).risk ∧
        "TAF: " ++ e ∈ (briefAirport { src with taf := FetchResult.failed e }).errors) ∧
      ((briefAirport { src with pireps := FetchResult.failed e }).metar =
          (briefAirport src).metar ∧
        (briefAirport { src with pireps := FetchResult.failed e }).taf =
          (briefAirport src).taf ∧
        (briefAirport { src with pireps := FetchResult.failed e }).sigmets =
          (briefAirport src).sigmets ∧
        (briefAirport { src with pireps := FetchResult.failed e }).notams =
          (briefAirport src).notams ∧
        (briefAirport { src with pireps := FetchResult.failed e }).risk =
          (briefAirport src).risk ∧
        "PIREP: " ++ e ∈ (briefAirport { src with pireps := FetchResult.failed e }).errors) ∧
      ((briefAirport { src with sigmets := FetchResult.failed e }).metar =
          (briefAirport src).metar ∧
        (briefAirport { src with sigmets := FetchResult.failed e }).taf =
          (briefAirport src).taf ∧
        (briefAirport { src with sigmets := FetchResult.failed e }).pireps =
          (briefAirport src).pireps ∧
        (briefAirport { src with sigmets := FetchResult.failed e }).notams =
          (briefAirport src).notams ∧
        "SIGMET: " ++ e ∈ (briefAirport { src with sigmets := FetchResult.failed e }).errors) ∧
      ((briefAirport { src with notams := FetchResult.failed e }).metar =
          (briefAirport src).metar ∧
        (briefAirport { src with notams := FetchResult.failed e }).taf =
          (briefAirport src).taf ∧
        (briefAirport { src with notams := FetchResult.failed e }).pireps =
          (briefAirport src).pireps ∧
        (briefAirport { src with notams := FetchResult.failed e }).sigmets =
          (briefAirport src).sigmets ∧
        (briefAirport { src with notams := FetchResult.failed e }).risk =
          (briefAirport src).risk ∧
        "NOTAM: " ++ e ∈ (briefAirport { src with notams := FetchResult.failed e }).errors)) ∧
    (∀ (dep arr : AirportSources) (mt tf mt2 e : String)
       (pl sl nl pl2 sl2 nl2 : List String),
      dep.metar = FetchResult.ok mt → dep.taf = FetchResult.ok tf →
      dep.pireps = FetchResult.ok pl → dep.sigmets = FetchResult.ok sl →
      dep.notams = FetchResult.ok nl →
      arr.metar = FetchResult.ok mt2 → arr.taf = FetchResult.failed e →
      arr.pireps = FetchResult.ok pl2 → arr.sigmets = FetchResult.ok sl2 →
      arr.notams = FetchResult.ok nl2 →
      (routeBriefing dep arr).departure.metar = some (decodeMetar mt) ∧
      (routeBriefing dep arr).departure.pireps = some (pl.map parsePirep) ∧
      (routeBriefing dep arr).departure.sigmets = some (sl.map parseSigmet) ∧
      (routeBriefing dep arr).departure.errors = [] ∧
      (routeBriefing dep arr).arrival.metar = some (decodeMetar mt2) ∧
      (routeBriefing dep arr).arrival.pireps = some (pl2.map parsePirep) ∧
      (routeBriefing dep arr).arrival.sigmets = some (sl2.map parseSigmet) ∧
      (routeBriefing dep arr).arrival.errors = ["TAF: " ++ e]) := by
  constructor
  · intro src e
    refine ⟨⟨rfl, rfl, rfl, rfl, ?_⟩, ⟨rfl, rfl, rfl, rfl, rfl, ?_⟩,
        ⟨rfl, rfl, rfl, rfl, rfl, ?_⟩, ⟨rfl, rfl, rfl, rfl, ?_⟩,
        ⟨rfl, rfl, rfl, rfl, rfl, ?_⟩⟩ <;>
      simp [briefAirport, errOf]
  · intro dep arr mt tf mt2 e pl sl nl pl2 sl2 nl2 h1 h2 h3 h4 h5 h6 h7 h8 h9 h10
    unfold routeBriefing briefAirport
    rw [h1, h2, h3, h4, h5, h6, h7, h8, h9, h10]
    exact ⟨rfl, rfl, rfl, rfl, rfl, rfl, rfl, rfl⟩

/-- Witness for C6 at a concrete route briefing with the arrival TAF
fetch failed. -/
theorem claim_C6_witness :
    ((⟨"KJFK", FetchResult.ok "KJFK 18010KT 10SM", FetchResult.ok "TAF KJFK",
        FetchResult.ok ["UA /OV KJFK"], FetchResult.ok ["SIGMET TS"],
        FetchResult.ok ["RWY CLSD"]⟩ : AirportSources).metar =
      FetchResult.ok "KJFK 18010KT 10SM") ∧
    (routeBriefing
        ⟨"KJFK", FetchResult.ok "KJFK 18010KT 10SM", FetchResult.ok "TAF KJFK",
          FetchResult.ok ["UA /OV KJFK"], FetchResult.ok ["SIGMET TS"],
          FetchResult.ok ["RWY CLSD"]⟩
        ⟨"KLAX", FetchResult.ok "KLAX 27005KT 10SM", FetchResult.failed "timeout",
          FetchResult.ok ["UA /OV KLAX"], FetchResult.ok ["SIGMET ICE"],
          FetchResult.ok ["OBST CRANE"]⟩).arrival.errors = ["TAF: " ++ "timeout"] :=
  ⟨rfl,
   (claim_C6.2
      ⟨"KJFK", FetchResult.ok "KJFK 18010KT 10SM", FetchResult.ok "TAF KJFK",
        FetchResult.ok ["UA /OV KJFK"], FetchResult.ok ["SIGMET TS"],
        FetchResult.ok ["RWY CLSD"]⟩
      ⟨"KLAX", FetchResult.ok "KLAX 27005KT 10SM", FetchResult.failed "timeout",
        FetchResult.ok ["UA /OV KLAX"], FetchResult.ok ["SIGMET ICE"],
        FetchResult.ok ["OBST CRANE"]⟩
      "KJFK 18010KT 10SM" "TAF KJFK" "KLAX 27005KT 10SM" "timeout"
      ["UA /OV KJFK"] ["SIGMET TS"] ["RWY CLSD"]
      ["UA /OV KLAX"] ["SIGMET ICE"] ["OBST CRANE"]
      rfl rfl rfl rfl rfl rfl rfl rfl rfl rfl).2.2.2.2.2.2.2⟩

/-- C7: a route briefing is exactly the two per-airport records produced
by the same pipeline run twice, and neither record depends on the other
airport's input. -/
theorem claim_C7 :
    ∀ dep arr arr2 dep2 : AirportSources,
      (routeBriefing dep arr).departure = briefAirport dep ∧
      (routeBriefing dep arr).arrival = briefAirport arr ∧
      (routeBriefing dep arr).departure = (routeBriefing dep arr2).departure ∧
      (routeBriefing dep arr).arrival = (routeBriefing dep2 arr).arrival :=
  fun _ _ _ _ => ⟨rfl, rfl, rfl, rfl⟩

/-- C8: a decoded METAR with wind speed 20 knots and visibility 4
statute miles and no other adverse factor scores exactly two nonzero
factors of one point each, total score 2 and category Significant. -/
theorem claim_C8 (m : DecodedMetar) (d : Option Nat)
    (hw : m.wind = some ⟨d, 20, none⟩)
    (hv : m.visibility = ⟨some 4, "SM", false⟩)
    (hcl : ceilingPoints m.clouds = 0)
    (hwx : wxPoints m.weather = 0) :
    (assess m []).totalScore = 2 ∧
    (assess m []).category = Category.Significant ∧
    ((assess m []).breakdown.filter fun f => f.points ≠ 0).length = 2 ∧
    ((assess m []).breakdown.all fun f => f.points ≤ 1) = true ∧
    (assess m []).reasoning.length = 2 := by
  have h1 : windPoints (some ⟨d, 20, none⟩) = 1 := by
    unfold windPoints effectiveWind
    simp [Nat.max_def]
  have h2 : visPoints ⟨some 4, "SM", false⟩ = 1 := by decide
  unfold assess riskFactors
  rw [hw, hv, hcl, hwx, h1, h2]
  decide

/-- Witness for C8 at a concretely decoded METAR. -/
theorem claim_C8_witness :
    ((decodeMetar "KJFK 121251Z 18020KT 4SM FEW050 15/10 A3001").wind =
      some ⟨some 180, 20, none⟩) ∧
    ((assess (decodeMetar "KJFK 121251Z 18020KT 4SM FEW050 15/10 A3001") []).totalScore = 2 ∧
      (assess (decodeMetar "KJFK 121251Z 18020KT 4SM FEW050 15/10 A3001") []).category =
        Category.Significant ∧
      ((assess (decodeMetar "KJFK 121251Z 18020KT 4SM FEW050 15/10 A3001") []).breakdown.filter
          fun f => f.points ≠ 0).length = 2 ∧
      ((assess (decodeMetar "KJFK 121251Z 18020KT 4SM FEW050 15/10 A3001") []).breakdown.all
          fun f => f.points ≤ 1) = true ∧
      (assess (decodeMetar "KJFK 121251Z 18020KT 4SM FEW050 15/10 A3001") []).reasoning.length =
        2) :=
  ⟨by decide,
   claim_C8 (decodeMetar "KJFK 121251Z 18020KT 4SM FEW050 15/10 A3001") (some 180)
     (by decide) (by decide) (by decide) (by decide)⟩

/-- C9: the PIREP text `UUA /OV ABC /TB SEV` decodes to urgent with
severe turbulence, and in general a leading UUA token discriminates an
urgent report while a leading UA token gives a routine report. -/
theorem claim_C9 :
    (parsePirep "UUA /OV ABC /TB SEV").urgency = Urgency.urgent ∧
    ((parsePirep "UUA /OV ABC /TB SEV").conditions.turbulence.map CondReport.severity) =
      some Severity.severe ∧
    (∀ s : String, firstToken s = "UUA" → (parsePirep s).urgency = Urgency.urgent) ∧
    (∀ s : String, firstToken s = "UA" → (parsePirep s).urgency = Urgency.routine) := by
  refine ⟨by decide, by decide, ?_, ?_⟩
  · intro s hs
    unfold parsePirep
    rw [foldl_pirep_urgency]
    simp [hs]
  · intro s hs
    unfold parsePirep
    rw [foldl_pirep_urgency]
    simp [hs]

/-- Witness for C9 at concrete urgent and routine reports. -/
theorem claim_C9_witness :
    (firstToken "UUA /TB MOD" = "UUA" ∧
      (parsePirep "UUA /TB MOD").urgency = Urgency.urgent) ∧
    (firstToken "UA /TB MOD" = "UA" ∧
      (parsePirep "UA /TB MOD").urgency = Urgency.routine) :=
  ⟨⟨by decide, claim_C9.2.2.1 "UUA /TB MOD" (by decide)⟩,
   ⟨by decide, claim_C9.2.2.2 "UA /TB MOD" (by decide)⟩⟩

/-- C10: the frontend extractor returns null on every falsy input and,
on every non-empty string, an object with exactly the four keys wind,
visibility, temperature and pressure, each key holding a formatted
string exactly when its regular expression matches and null
otherwise. -/
theorem claim_C10 :
    parseMetar none = none ∧
    parseMetar (some "") = none ∧
    (∀ s : String, s ≠ "" →
      ∃ v : ParsedMetarView, parseMetar (some s) = some v ∧
        (v.wind.isSome ↔ (windMatch s).isSome) ∧
        (v.visibility.isSome ↔ (visMatch s).isSome) ∧
        (v.temperature.isSome ↔ (tempMatch s).isSome) ∧
        (v.pressure.isSome ↔ (pressMatch s).isSome)) := by
  refine ⟨rfl, rfl, ?_⟩
  intro s hs
  have hp : parseMetar (some s) = some
      { wind := (windMatch s).map fun m => m.1 ++ "°/" ++ m.2.1 ++ "kt" ++ m.2.2,
        visibility := (visMatch s).map fun v => v ++ "SM",
        temperature := (tempMatch s).map fun t => t.1 ++ "°C",
        pressure := (pressMatch s).map fun p =>
          String.mk (p.data.take 2) ++ "." ++ String.mk (p.data.drop 2) } := by
    simp only [parseMetar]
    rw [if_neg hs]
  refine ⟨_, hp, ?_, ?_, ?_, ?_⟩ <;> simp

/-- Witness for C10 at a concrete raw METAR text. -/
theorem claim_C10_witness :
    ("18020G35KT 4SM 15/10 A2992" ≠ "") ∧
    (∃ v : ParsedMetarView,
      parseMetar (some "18020G35KT 4SM 15/10 A2992") = some v ∧
        (v.wind.isSome ↔ (windMatch "18020G35KT 4SM 15/10 A2992").isSome) ∧
        (v.visibility.isSome ↔ (visMatch "18020G35KT 4SM 15/10 A2992").isSome) ∧
        (v.temperature.isSome ↔ (tempMatch "18020G35KT 4SM 15/10 A2992").isSome) ∧
        (v.pressure.isSome ↔ (pressMatch "18020G35KT 4SM 15/10 A2992").isSome)) :=
  ⟨by decide, claim_C10.2.2 "18020G35KT 4SM 15/10 A2992" (by decide)⟩

end Aerolytics
